import Mathlib

/-!
Verification development for the hwfy/ftp client library.

The Go sources are shallowly embedded: Go strings become `List Char`
(all relevant data is ASCII, so byte indices and rune indices agree),
Go errors become the inductive `GoErr` (Go compares listing-parser
errors by object identity against the `errUnsupportedListLine`
sentinel, which the distinct constructors model), fallible functions
return `Except GoErr _`, and effectful protocol code is embedded as
pure functions over explicit environments describing the outcome of
each socket interaction, additionally returning a trace of the
externally visible events (data-connection closes, control-connection
completion reads).
-/

set_option maxRecDepth 4000

deriving instance DecidableEq for Except

/-- Convert a Lean string literal to the `List Char` representation used
throughout the embedding. -/
def str (s : String) : List Char := s.data

/-- Errors produced by the embedded code.  Go distinguishes errors by
identity; each `errors.New` site and each standard-library error class
gets its own constructor. -/
inductive GoErr where
  /-- the `errUnsupportedListLine` sentinel of parse.go -/
  | unsupportedListLine
  /-- `errors.New("Unknown entry type")` in `parseLsListLine` -/
  | unknownEntryType
  /-- `errors.New("Invalid year format in time string")` in `setTime` -/
  | invalidYear
  /-- any `time.Parse` failure -/
  | timeParse
  /-- `strconv` syntax error -/
  | numSyntax
  /-- `strconv` range error -/
  | numRange
  /-- `errors.New("Invalid EPSV response format")` -/
  | invalidEpsvFormat
  /-- `errors.New("Invalid PASV response format")` -/
  | invalidPasvFormat
  /-- textproto: malformed status line -/
  | shortResponse
  /-- `textproto.Error{Code, Msg}`: unexpected status code -/
  | protocol (code : Nat) (msg : List Char)
  /-- abstract transport/O errors, distinguished by a tag -/
  | io (tag : Nat)
deriving DecidableEq, Repr

/-! ### Go `strings` helpers over `List Char` -/

/-- `strings.Index(l, pat)` for a non-empty pattern: byte index of the
first occurrence, `-1` if absent. -/
def goIndexSub (l pat : List Char) : Int :=
  go l 0
where
  go : List Char → Nat → Int
    | [], _ => if pat = [] then 0 else -1
    | c :: cs, i =>
      if List.isPrefixOf pat (c :: cs) then (i : Int) else go cs (i + 1)

/-- `strings.LastIndex(l, pat)`: byte index of the last occurrence,
`-1` if absent. -/
def goLastIndexSub (l pat : List Char) : Int :=
  go l 0 (-1)
where
  go : List Char → Nat → Int → Int
    | [], _, best => if pat = [] then max best 0 else best
    | c :: cs, i, best =>
      if List.isPrefixOf pat (c :: cs) then go cs (i + 1) (i : Int)
      else go cs (i + 1) best

/-- `strings.Index(l, string(c))` for a single character. -/
def goIndexChar (l : List Char) (c : Char) : Int := goIndexSub l [c]

/-- Go slice `l[a:b]` (both in range in every use site reached by the
claims; out-of-order bounds yield `[]` where Go would panic). -/
def goSlice (l : List Char) (a b : Nat) : List Char := (l.take b).drop a

/-- Go slice `l[a:]`. -/
def goSliceFrom (l : List Char) (a : Nat) : List Char := l.drop a

/-- `strings.Split(l, string(sep))` for a single-character separator. -/
def goSplitChar (sep : Char) (l : List Char) : List (List Char) :=
  l.foldr
    (fun c acc =>
      match acc with
      | [] => [[c]]
      | a :: as => if c = sep then [] :: a :: as else (c :: a) :: as)
    [[]]

/-- Whitespace recognized by `strings.Fields` / `strings.TrimSpace`
(the sources only ever see ASCII). -/
def isGoSpace (c : Char) : Bool :=
  c = ' ' || c = '\t' || c = '\n' || c = '\r' || c = '\x0b' || c = '\x0c'

/-- `strings.Fields`: split around runs of whitespace, dropping empties. -/
def goFields (l : List Char) : List (List Char) :=
  (l.foldr
    (fun c acc =>
      match acc with
      | [] => if isGoSpace c then [[]] else [[c]]
      | a :: as => if isGoSpace c then [] :: a :: as else (c :: a) :: as)
    [[]]).filter (fun f => f ≠ [])

/-- `strings.Join(xs, " ")`. -/
def goJoinSpace (xs : List (List Char)) : List Char :=
  List.intercalate [' '] xs

/-- `strings.TrimLeft(l, " ")`. -/
def goTrimLeftSpace (l : List Char) : List Char :=
  l.dropWhile (fun c => c = ' ')

/-- `strings.TrimSpace`. -/
def goTrimSpace (l : List Char) : List Char :=
  ((l.dropWhile isGoSpace).reverse.dropWhile isGoSpace).reverse

/-- `strings.TrimRight(l, "\r\n")`. -/
def goTrimRightCRLF (l : List Char) : List Char :=
  (l.reverse.dropWhile (fun c => c = '\r' || c = '\n')).reverse

/-- `strings.HasPrefix`. -/
def goStartsWith (pat l : List Char) : Bool := List.isPrefixOf pat l

/-- `strings.TrimPrefix`. -/
def goStripLead (pat l : List Char) : List Char :=
  if List.isPrefixOf pat l then l.drop pat.length else l

/-- `strings.SplitN(l, " ", 2)`. -/
def goSplitN2Space (l : List Char) : List (List Char) :=
  match goIndexChar l ' ' with
  | Int.negSucc _ => [l]
  | Int.ofNat i => [l.take i, l.drop (i + 1)]

/-- `strings.Contains(l, ":")` specialised to the one use site. -/
def goContainsColon (l : List Char) : Bool := l.contains ':'

/-! ### Go `strconv` helpers -/

def isDigitCh (c : Char) : Bool := '0' ≤ c && c ≤ '9'

def digitVal (c : Char) : Nat := c.toNat - '0'.toNat

/-- Value of a digit in a given base, if valid. -/
def baseDigitVal (base : Nat) (c : Char) : Option Nat :=
  let v :=
    if isDigitCh c then some (digitVal c)
    else if 'a' ≤ c && c ≤ 'f' then some (c.toNat - 'a'.toNat + 10)
    else if 'A' ≤ c && c ≤ 'F' then some (c.toNat - 'A'.toNat + 10)
    else none
  match v with
  | some v => if v < base then some v else none
  | none => none

/-- Accumulate digits of `ds` in base `b`; `numSyntax` on a bad digit or
when `ds` is empty. -/
def parseDigits (b : Nat) (ds : List Char) : Except GoErr Nat :=
  match ds with
  | [] => .error .numSyntax
  | _ =>
    ds.foldlM
      (fun acc c =>
        match baseDigitVal b c with
        | some v => .ok (acc * b + v)
        | none => .error .numSyntax)
      0

/-- `strconv.ParseUint(s, base, 64)` for `base ∈ {0, 10}` (the only
bases in the sources).  Base 0 auto-detects `0x`/`0o`/`0b` prefixes and
legacy leading-zero octal, as Go does; digit-separating underscores are
not modelled (no claim involves them).  A value exceeding 64 bits is a
range error. -/
def goParseUint (base : Nat) (s : List Char) : Except GoErr Nat :=
  match s with
  | [] => .error .numSyntax
  | _ =>
    let core : Except GoErr Nat :=
      if base = 10 then parseDigits 10 s
      else
        match s with
        | '0' :: c :: rest =>
          if (c = 'b' || c = 'B') && rest ≠ [] then parseDigits 2 rest
          else if (c = 'o' || c = 'O') && rest ≠ [] then parseDigits 8 rest
          else if (c = 'x' || c = 'X') && rest ≠ [] then parseDigits 16 rest
          else parseDigits 8 (c :: rest)
        | ['0'] => .ok 0
        | _ => parseDigits 10 s
    match core with
    | .error e => .error e
    | .ok v => if v < 2 ^ 64 then .ok v else .error .numRange

/-- `strconv.Atoi` (= `ParseInt(s, 10, 64)` on a 64-bit platform):
optional sign, then decimal digits. -/
def goAtoi (s : List Char) : Except GoErr Int :=
  let (neg, ds) :=
    match s with
    | '+' :: rest => (false, rest)
    | '-' :: rest => (true, rest)
    | _ => (false, s)
  match parseDigits 10 ds with
  | .error e => .error e
  | .ok v =>
    if neg then
      if v ≤ 2 ^ 63 then .ok (-(v : Int)) else .error .numRange
    else
      if v < 2 ^ 63 then .ok (v : Int) else .error .numRange

/-- `strconv.Itoa` for the non-negative values that reach it. -/
def goItoa (n : Nat) : List Char := Nat.toDigits 10 n

/-! ### Go `time` model

`time.Time` values are modelled as broken-down UTC instants; every
layout string passed to `time.Parse` in the sources gets a dedicated
parser, and `goTimeParse` dispatches on the layout exactly as Go's
layout engine would specialise to it. -/

/-- A UTC instant as the embedded code observes it. -/
structure GoTime where
  year : Nat
  month : Nat
  day : Nat
  hour : Nat
  minute : Nat
  second : Nat
deriving DecidableEq, Repr

/-- The Go zero `time.Time`: January 1, year 1, 00:00:00 UTC. -/
def GoTime.zero : GoTime := ⟨1, 1, 1, 0, 0, 0⟩

def isLeapYear (y : Nat) : Bool :=
  y % 4 = 0 && (y % 100 ≠ 0 || y % 400 = 0)

def daysInMonth (y m : Nat) : Nat :=
  if m = 2 then (if isLeapYear y then 29 else 28)
  else if m = 4 || m = 6 || m = 9 || m = 11 then 30
  else 31

/-- Shared validity check performed by Go's `time.Parse` before it
builds the date. -/
def validDate (y mo d h mi s : Nat) : Bool :=
  1 ≤ mo && mo ≤ 12 && 1 ≤ d && d ≤ daysInMonth y mo
    && h ≤ 23 && mi ≤ 59 && s ≤ 59

/-- Go's two-digit-year rule: `"06"` layouts map 69–99 to 19xx and
00–68 to 20xx. -/
def yearFrom2 (yy : Nat) : Nat := if 69 ≤ yy then 1900 + yy else 2000 + yy

def twoDigits (a b : Char) : Option Nat :=
  if isDigitCh a && isDigitCh b then some (digitVal a * 10 + digitVal b)
  else none

/-- `time.Parse("20060102150405", s)`: a compact 14-digit UTC stamp. -/
def parseTimeCompact (s : List Char) : Except GoErr GoTime :=
  match s with
  | [y1, y2, y3, y4, mo1, mo2, d1, d2, h1, h2, mi1, mi2, s1, s2] =>
    match twoDigits y1 y2, twoDigits y3 y4, twoDigits mo1 mo2,
          twoDigits d1 d2, twoDigits h1 h2, twoDigits mi1 mi2,
          twoDigits s1 s2 with
    | some yh, some yl, some mo, some d, some h, some mi, some sec =>
      let y := yh * 100 + yl
      if validDate y mo d h mi sec then .ok ⟨y, mo, d, h, mi, sec⟩
      else .error .timeParse
    | _, _, _, _, _, _, _ => .error .timeParse
  | _ => .error .timeParse

/-- `time.Parse("01-02-06  03:04PM", s)` (s is exactly 17 bytes at the
single call site). -/
def parseTimeDirA (s : List Char) : Except GoErr GoTime :=
  match s with
  | [mo1, mo2, '-', d1, d2, '-', y1, y2, ' ', ' ', h1, h2, ':', mi1, mi2, ap, 'M'] =>
    match twoDigits mo1 mo2, twoDigits d1 d2, twoDigits y1 y2,
          twoDigits h1 h2, twoDigits mi1 mi2 with
    | some mo, some d, some yy, some h12, some mi =>
      if (ap = 'A' || ap = 'P') && h12 ≤ 12 then
        let y := yearFrom2 yy
        let h := if ap = 'P' then h12 % 12 + 12 else h12 % 12
        if validDate y mo d h mi 0 then .ok ⟨y, mo, d, h, mi, 0⟩
        else .error .timeParse
      else .error .timeParse
    | _, _, _, _, _ => .error .timeParse
  | _ => .error .timeParse

/-- `time.Parse("2006-01-02  15:04", s)` (s is exactly 17 bytes at the
single call site). -/
def parseTimeDirB (s : List Char) : Except GoErr GoTime :=
  match s with
  | [y1, y2, y3, y4, '-', mo1, mo2, '-', d1, d2, ' ', ' ', h1, h2, ':', mi1, mi2] =>
    match twoDigits y1 y2, twoDigits y3 y4, twoDigits mo1 mo2,
          twoDigits d1 d2, twoDigits h1 h2, twoDigits mi1 mi2 with
    | some yh, some yl, some mo, some d, some h, some mi =>
      let y := yh * 100 + yl
      if validDate y mo d h mi 0 then .ok ⟨y, mo, d, h, mi, 0⟩
      else .error .timeParse
    | _, _, _, _, _, _ => .error .timeParse
  | _ => .error .timeParse

def monthOfName (s : List Char) : Option Nat :=
  if s = str "Jan" then some 1 else if s = str "Feb" then some 2
  else if s = str "Mar" then some 3 else if s = str "Apr" then some 4
  else if s = str "May" then some 5 else if s = str "Jun" then some 6
  else if s = str "Jul" then some 7 else if s = str "Aug" then some 8
  else if s = str "Sep" then some 9 else if s = str "Oct" then some 10
  else if s = str "Nov" then some 11 else if s = str "Dec" then some 12
  else none

/-- 1-or-2-digit number (Go layout element `_2` on the already
space-joined strings built by `setTime`). -/
def oneOrTwoDigits (s : List Char) : Option Nat :=
  match s with
  | [a] => if isDigitCh a then some (digitVal a) else none
  | [a, b] => twoDigits a b
  | _ => none

/-- `time.Parse("_2 Jan 06 15:04 MST", s)` for the strings `setTime`
assembles: `day month yy HH:MM zone`, zone always `GMT` (offset 0). -/
def parseTimeLs (s : List Char) : Except GoErr GoTime :=
  match goSplitChar ' ' s with
  | [dayS, monS, yyS, hmS, zoneS] =>
    match oneOrTwoDigits dayS, monthOfName monS, yyS, goSplitChar ':' hmS with
    | some d, some mo, [yA, yB], [hS, miS] =>
      match twoDigits yA yB, oneOrTwoDigits hS, miS with
      | some yy, some h, [mA, mB] =>
        match twoDigits mA mB with
        | some mi =>
          if zoneS.all (fun c => 'A' ≤ c && c ≤ 'Z') && zoneS ≠ [] then
            let y := yearFrom2 yy
            if validDate y mo d h mi 0 then .ok ⟨y, mo, d, h, mi, 0⟩
            else .error .timeParse
          else .error .timeParse
        | none => .error .timeParse
      | _, _, _ => .error .timeParse
    | _, _, _, _ => .error .timeParse
  | _ => .error .timeParse

/-- `time.Parse(layout, value)` for exactly the layout strings occurring
in parse.go. -/
def goTimeParse (layout value : List Char) : Except GoErr GoTime :=
  if layout = str "20060102150405" then parseTimeCompact value
  else if layout = str "01-02-06  03:04PM" then parseTimeDirA value
  else if layout = str "2006-01-02  15:04" then parseTimeDirB value
  else if layout = str "_2 Jan 06 15:04 MST" then parseTimeLs value
  else .error .timeParse

/-! ### Directory entries (parse.go) -/

/-- `EntryType` of parse.go (`iota`: file = 0, folder = 1, link = 2). -/
inductive EntryType where
  | file
  | folder
  | link
deriving DecidableEq, Repr

/-- `Entry` of parse.go; defaults are the Go zero values.  The Go field
`Type` is spelled `etype` (`Type` is reserved in Lean). -/
structure Entry where
  Name : List Char := []
  etype : EntryType := .file
  Size : Nat := 0
  Time : GoTime := GoTime.zero
deriving DecidableEq, Repr

/-- `(*Entry).setSize`: `e.Size, err = strconv.ParseUint(str, 0, 64)`.
Go assigns the returned value (0 on a syntax error, the max uint64 on a
range error) even when it also returns the error, so the pair is
returned. -/
def Entry.setSize (e : Entry) (s : List Char) : Entry × Option GoErr :=
  match goParseUint 0 s with
  | .ok v => ({ e with Size := v }, none)
  | .error .numRange => ({ e with Size := 2 ^ 64 - 1 }, some .numRange)
  | .error er => ({ e with Size := 0 }, some er)

/-- `(*Entry).setTime`: builds a `"_2 Jan 06 15:04 MST"` string from the
three time tokens.  `thisYear` stands for the `time.Now().Date()` year
read in the `":"` branch. -/
def Entry.setTime (thisYear : Nat) (e : Entry) (fields : List (List Char)) :
    Except GoErr Entry :=
  let f0 := fields.getD 0 []
  let f1 := fields.getD 1 []
  let f2 := fields.getD 2 []
  let timeStr : Except GoErr (List Char) :=
    if goContainsColon f2 then
      .ok (f1 ++ [' '] ++ f0 ++ [' '] ++ goSlice (goItoa thisYear) 2 4
            ++ [' '] ++ f2 ++ str " GMT")
    else
      if f2.length ≠ 4 then .error .invalidYear
      else .ok (f1 ++ [' '] ++ f0 ++ [' '] ++ goSlice f2 2 4 ++ str " 00:00 GMT")
  match timeStr with
  | .error er => .error er
  | .ok ts =>
    match goTimeParse (str "_2 Jan 06 15:04 MST") ts with
    | .error er => .error er
    | .ok t => .ok { e with Time := t }

/-- `parseRFC3659ListLine` of parse.go: the structured-facts
(`fact=value;`) recognizer. -/
def parseRFC3659ListLine (line : List Char) : Except GoErr Entry :=
  let iSemicolon := goIndexChar line ';'
  let iWhitespace := goIndexChar line ' '
  if iSemicolon < 0 || iSemicolon > iWhitespace then
    .error .unsupportedListLine
  else
    let e0 : Entry := { Name := goSliceFrom line (iWhitespace + 1).toNat }
    let fields := goSplitChar ';' (line.take (iWhitespace - 1).toNat)
    facts fields e0
where
  facts : List (List Char) → Entry → Except GoErr Entry
    | [], e => .ok e
    | field :: rest, e =>
      let i := goIndexChar field '='
      if i < 1 then .error .unsupportedListLine
      else
        let key := field.take i.toNat
        let value := goSliceFrom field (i + 1).toNat
        if key = str "modify" then
          match goTimeParse (str "20060102150405") value with
          | .error er => .error er
          | .ok t => facts rest { e with Time := t }
        else if key = str "type" then
          if value = str "dir" || value = str "cdir" || value = str "pdir" then
            facts rest { e with etype := .folder }
          else if value = str "file" then
            facts rest { e with etype := .file }
          else
            facts rest e
        else if key = str "size" then
          facts rest (e.setSize value).1
        else
          facts rest e

/-- `parseLsListLine` of parse.go: the UNIX-`ls`-style recognizer.
`thisYear` is threaded to `setTime` (which reads the clock). -/
def parseLsListLine (thisYear : Nat) (line : List Char) : Except GoErr Entry :=
  let fields := goFields line
  if fields.length ≥ 7 && fields.getD 1 [] = str "folder"
      && fields.getD 2 [] = str "0" then
    let e : Entry := { etype := .folder, Name := goJoinSpace (fields.drop 6) }
    Entry.setTime thisYear e ((fields.drop 3).take 3)
  else if fields.length < 8 then
    .error .unsupportedListLine
  else if fields.getD 1 [] = str "0" then
    let e : Entry := { etype := .file, Name := goJoinSpace (fields.drop 7) }
    match e.setSize (fields.getD 2 []) with
    | (_, some er) => .error er
    | (e1, none) => Entry.setTime thisYear e1 ((fields.drop 4).take 3)
  else if fields.length < 9 then
    .error .unsupportedListLine
  else
    let finish : Entry → Except GoErr Entry := fun e =>
      match Entry.setTime thisYear e ((fields.drop 5).take 3) with
      | .error er => .error er
      | .ok e' => .ok { e' with Name := goJoinSpace (fields.drop 8) }
    match (fields.getD 0 []).headD ' ' with
    | '-' =>
      match Entry.setSize { etype := .file } (fields.getD 4 []) with
      | (_, some er) => .error er
      | (e1, none) => finish e1
    | 'd' => finish { etype := .folder }
    | 'l' => finish { etype := .link }
    | _ => .error .unknownEntryType

/-- `dirTimeFormats` of parse.go. -/
def dirTimeFormats : List (List Char) :=
  [str "01-02-06  03:04PM", str "2006-01-02  15:04"]

/-- The date-prefix loop of `parseDirListLine`: walks the formats,
recording the last attempted-and-failed parse in `err`; a format that is
never attempted (line too short) leaves `err` untouched. -/
def dirTimeTry : List (List Char) → List Char → Option GoErr → GoTime →
    Option GoErr × GoTime × List Char
  | [], line, err, t => (err, t, line)
  | fmt :: rest, line, err, t =>
    if line.length > fmt.length then
      match goTimeParse fmt (line.take fmt.length) with
      | .ok t' => (none, t', line.drop fmt.length)
      | .error e => dirTimeTry rest line (some e) t
    else
      dirTimeTry rest line err t

/-- `parseDirListLine` of parse.go: the MS-DOS `DIR`-style recognizer. -/
def parseDirListLine (line : List Char) : Except GoErr Entry :=
  match dirTimeTry dirTimeFormats line none GoTime.zero with
  | (some _, _, _) => .error .unsupportedListLine
  | (none, t, rest) =>
    let line1 := goTrimLeftSpace rest
    if goStartsWith (str "<DIR>") line1 then
      .ok { Name := goTrimLeftSpace (goStripLead (str "<DIR>") line1),
            etype := .folder, Time := t }
    else
      match goIndexChar line1 ' ' with
      | Int.negSucc _ => .error .unsupportedListLine
      | Int.ofNat sp =>
        match goParseUint 10 (line1.take sp) with
        | .error _ => .error .unsupportedListLine
        | .ok size =>
          .ok { Name := goTrimLeftSpace (line1.drop sp), etype := .file,
                Size := size, Time := t }

/-- `listLineParsers` of parse.go: the fixed recognizer order. -/
def listLineParsers (thisYear : Nat) : List (List Char → Except GoErr Entry) :=
  [parseRFC3659ListLine, parseLsListLine thisYear, parseDirListLine]

/-- The loop body of `parseListLine`: return the first outcome that is
not the `errUnsupportedListLine` sentinel (a success, or any other
error). -/
def parseChain : List (List Char → Except GoErr Entry) → List Char →
    Except GoErr Entry
  | [], _ => .error .unsupportedListLine
  | f :: fs, line =>
    match f line with
    | .error .unsupportedListLine => parseChain fs line
    | r => r

/-- `parseListLine` of parse.go. -/
def parseListLine (thisYear : Nat) (line : List Char) : Except GoErr Entry :=
  parseChain (listLineParsers thisYear) line

/-- The per-line accumulation loop of `client.List`: an entry is kept
exactly when its line parses without error. -/
def listScan (thisYear : Nat) (lines : List (List Char)) : List Entry :=
  lines.filterMap fun l =>
    match parseListLine thisYear l with
    | .ok e => some e
    | .error _ => none

/-! ### Status codes

Modelled from the spec: the numeric status-code constants
(`StatusReady`, `StatusClosingDataConnection`, ...) live in a constants
file of this repository that is not among the provided sources; their
values are taken from the spec's external-interface list (greeting=220,
about-to-open=150, already-open=125, system-status=211,
closing-data-connection=226, entering-passive=227,
entering-extended-passive=229, pending-further-info=350). -/

def StatusAlreadyOpen : Nat := 125
def StatusAboutToSend : Nat := 150
def StatusCommandOK : Nat := 200
def StatusSystem : Nat := 211
def StatusReady : Nat := 220
def StatusClosingDataConnection : Nat := 226
def StatusPassiveMode : Nat := 227
def StatusExtendedPassiveMode : Nat := 229
def StatusRequestFilePending : Nat := 350

/-! ### textproto model

A control-connection read is embedded as a value of type
`Except GoErr (Nat × List Char)`: either a transport/parse error or the
assembled `(code, message)` pair. -/

/-- The expected-code check of `textproto.ReadResponse(expectCode)` for
the codes the client passes: `-1` accepts anything, a three-digit code
must match exactly, a mismatch yields `textproto.Error{code, msg}`. -/
def readRespCheck (expected : Int) (raw : Except GoErr (Nat × List Char)) :
    Except GoErr (Nat × List Char) :=
  match raw with
  | .error e => .error e
  | .ok (code, msg) =>
    if 100 ≤ expected && (code : Int) ≠ expected then
      .error (.protocol code msg)
    else
      .ok (code, msg)

/-- `client.cmd(expected, ...)`: write one command line (outcome
`writeErr`), then `ReadResponse(expected)` on the raw reply. -/
def goCmd (expected : Int) (writeErr : Option GoErr)
    (raw : Except GoErr (Nat × List Char)) : Except GoErr (Nat × List Char) :=
  match writeErr with
  | some e => .error e
  | none => readRespCheck expected raw

/-- `textproto.parseCodeLine(line, 0)`: a reply line is three digits,
then a space (final) or a dash (continued), then the message. -/
def parseCodeLine (l : List Char) : Except GoErr (Nat × Bool × List Char) :=
  match l with
  | d1 :: d2 :: d3 :: sep :: rest =>
    if sep ≠ ' ' && sep ≠ '-' then .error .shortResponse
    else
      match goAtoi [d1, d2, d3] with
      | .error _ => .error .shortResponse
      | .ok code =>
        if code < 100 then .error .shortResponse
        else .ok (code.toNat, sep = '-', rest)
  | _ => .error .shortResponse

/-- The continuation loop of `textproto.ReadResponse`: while the reply
is continued, each further line either closes the block (same code,
space separator), or is appended verbatim. -/
def rrLoop (code : Nat) : List (List Char) → List Char → Bool →
    Except GoErr (Nat × List Char)
  | _, message, false => .ok (code, message)
  | [], _, true => .error (.io 900)
  | l :: ls, message, true =>
    match parseCodeLine l with
    | .error _ => rrLoop code ls (message ++ '\n' :: goTrimRightCRLF l) true
    | .ok (code2, cont2, more) =>
      if code2 = code then rrLoop code ls (message ++ '\n' :: more) cont2
      else rrLoop code ls (message ++ '\n' :: goTrimRightCRLF l) true

/-- `textproto.ReadResponse(expected)` over the wire lines of one reply:
assemble the (possibly multi-line) message, then apply the
expected-code check. -/
def readResponseLines (expected : Int) (lines : List (List Char)) :
    Except GoErr (Nat × List Char) :=
  match lines with
  | [] => .error (.io 901)
  | l :: ls =>
    match parseCodeLine l with
    | .error e => .error e
    | .ok (code, cont, msg) => readRespCheck expected (rrLoop code ls msg cont)

/-! ### Feature negotiation (`client.feat`) -/

/-- The session's feature table: Go `map[string]string` as an
association list with insert-or-overwrite update. -/
def featSet (m : List (List Char × List Char)) (k v : List Char) :
    List (List Char × List Char) :=
  match m with
  | [] => [(k, v)]
  | (k', v') :: rest =>
    if k' = k then (k, v) :: rest else (k', v') :: featSet rest k v

/-- The line loop of `client.feat`: continuation lines starting with a
space are trimmed, split on the first space into capability and
optional parameter, and stored. -/
def featLines (lines : List (List Char))
    (features : List (List Char × List Char)) :
    List (List Char × List Char) :=
  match lines with
  | [] => features
  | line :: rest =>
    if goStartsWith [' '] line then
      match goSplitN2Space (goTrimSpace line) with
      | [command] => featLines rest (featSet features command [])
      | [command, commandDesc] => featLines rest (featSet features command commandDesc)
      | _ => featLines rest features
    else
      featLines rest features

/-- `client.feat`: a non-`StatusSystem` reply leaves the feature table
untouched and is not an error; a `StatusSystem` reply is split on
newlines and scanned for capability lines. -/
def feat (cmdRes : Except GoErr (Nat × List Char))
    (features : List (List Char × List Char)) :
    Except GoErr (List (List Char × List Char)) :=
  match cmdRes with
  | .error e => .error e
  | .ok (code, message) =>
    if code ≠ StatusSystem then .ok features
    else .ok (featLines (goSplitChar '\n' message) features)

/-- `client.feat` fed straight from the wire lines of the FEAT reply
(the `c.cmd(-1, "FEAT")` read). -/
def featWire (wire : List (List Char))
    (features : List (List Char × List Char)) :
    Except GoErr (List (List Char × List Char)) :=
  feat (readResponseLines (-1) wire) features

/-! ### Data Channel Broker (dataConn.go) -/

/-- Per-acquisition environment: the outcome of the EPSV and PASV
exchanges, should they be attempted (write outcome plus raw reply). -/
structure AcqOracle where
  epsvWriteErr : Option GoErr := none
  epsvReply : Except GoErr (Nat × List Char)
  pasvWriteErr : Option GoErr := none
  pasvReply : Except GoErr (Nat × List Char)

/-- The body parse of `client.epsv`: the port sits between the `"|||"`
marker and the last `"|"`. -/
def epsvParse (line : List Char) : Except GoErr Int :=
  let start := goIndexSub line (str "|||")
  let stop := goLastIndexSub line (str "|")
  if start = -1 || stop = -1 then .error .invalidEpsvFormat
  else goAtoi (goSlice line (start + 3).toNat stop.toNat)

/-- `client.epsv`: `c.cmd(StatusExtendedPassiveMode, "EPSV")`, then the
body parse. -/
def epsv (o : AcqOracle) : Except GoErr Int :=
  match goCmd (StatusExtendedPassiveMode : Nat) o.epsvWriteErr o.epsvReply with
  | .error e => .error e
  | .ok (_, line) => epsvParse line

/-- The body parse of `client.pasv`: split the parenthesised
comma-separated sextet; port = `part4*256 + part5`; the four address
octets are never used. -/
def pasvParse (line : List Char) : Except GoErr Int :=
  let start := goIndexSub line (str "(")
  let stop := goLastIndexSub line (str ")")
  if start = -1 || stop = -1 then .error .invalidPasvFormat
  else
    let pasvData := goSplitChar ',' (goSlice line (start + 1).toNat stop.toNat)
    if pasvData.length < 6 then .error .invalidPasvFormat
    else
      match goAtoi (pasvData.getD 4 []) with
      | .error e => .error e
      | .ok portPart1 =>
        match goAtoi (pasvData.getD 5 []) with
        | .error e => .error e
        | .ok portPart2 => .ok (portPart1 * 256 + portPart2)

/-- `client.pasv`: `c.cmd(StatusPassiveMode, "PASV")`, then the body
parse. -/
def pasv (o : AcqOracle) : Except GoErr Int :=
  match goCmd (StatusPassiveMode : Nat) o.pasvWriteErr o.pasvReply with
  | .error e => .error e
  | .ok (_, line) => pasvParse line

/-- Commands a port acquisition may issue on the control connection. -/
inductive AcqCmd where
  | epsvCmd
  | pasvCmd
deriving DecidableEq, Repr

/-- `client.getDataConnPort`: try EPSV unless `unepsv` is set; on any
EPSV failure set `unepsv` and fall back to PASV.  Returns the result,
the new `unepsv` flag, and the commands issued. -/
def getDataConnPort (unepsv : Bool) (o : AcqOracle) :
    Except GoErr Int × Bool × List AcqCmd :=
  if !unepsv then
    match epsv o with
    | .ok port => (.ok port, unepsv, [.epsvCmd])
    | .error _ => (pasv o, true, [.epsvCmd, .pasvCmd])
  else
    (pasv o, unepsv, [.pasvCmd])

/-- A session's successive port acquisitions: thread the `unepsv` flag
through `getDataConnPort`, recording for each call the commands issued
and the flag it leaves behind. -/
def runAcq : Bool → List AcqOracle → List (List AcqCmd × Bool)
  | _, [] => []
  | unepsv, o :: os =>
    let r := getDataConnPort unepsv o
    (r.2.2, r.2.1) :: runAcq r.2.1 os

/-- `client.openDataConn`: acquire a port, then dial
`(c.host, port)` — the session's resolved host, never an address from
the reply.  The dial target is returned in place of the socket. -/
def openDataConn (host : List Char) (unepsv : Bool) (o : AcqOracle) :
    Except GoErr (List Char × Int) × Bool :=
  match getDataConnPort unepsv o with
  | (.error e, unepsv', _) => (.error e, unepsv')
  | (.ok port, unepsv', _) => (.ok (host, port), unepsv')

/-! ### Transfer Orchestrator (`cmdDataConnFrom`, `StorFrom`,
`response.Close`, `client.Close`) -/

/-- Externally visible events on the data/control pair: closing the data
connection, and a control-connection read expecting a given code. -/
inductive Ev where
  | closeData
  | readCtrl (expected : Int)
deriving DecidableEq, Repr

/-- Environment of one `cmdDataConnFrom` call: outcome of
`openDataConn`, of the REST exchange (write + raw reply), of the
triggering-command write, and the raw reply read with
`ReadResponse(-1)`. -/
structure DataCmdEnv where
  openRes : Except GoErr Unit
  restWriteErr : Option GoErr := none
  restReply : Except GoErr (Nat × List Char) := .ok (350, [])
  cmdWriteErr : Option GoErr := none
  reply : Except GoErr (Nat × List Char)

/-- `client.cmdDataConnFrom`: open the data connection; for a non-zero
offset require `StatusRequestFilePending` from REST; send the
triggering command; read one reply and require `StatusAlreadyOpen` or
`StatusAboutToSend`; every failure after the open closes the data
connection. -/
def cmdDataConnFrom (offset : Nat) (env : DataCmdEnv) :
    Except GoErr Unit × List Ev :=
  match env.openRes with
  | .error e => (.error e, [])
  | .ok _ =>
    let rest : Except GoErr Unit :=
      if offset ≠ 0 then
        match goCmd (StatusRequestFilePending : Nat) env.restWriteErr env.restReply with
        | .error e => .error e
        | .ok _ => .ok ()
      else .ok ()
    match rest with
    | .error e => (.error e, [.closeData])
    | .ok _ =>
      match env.cmdWriteErr with
      | some e => (.error e, [.closeData])
      | none =>
        match readRespCheck (-1) env.reply with
        | .error e => (.error e, [.closeData])
        | .ok (code, msg) =>
          if code ≠ StatusAlreadyOpen && code ≠ StatusAboutToSend then
            (.error (.protocol code msg), [.closeData])
          else
            (.ok (), [])

/-- Environment of one `StorFrom` call: the `cmdDataConnFrom`
environment, the `io.Copy` outcome, and the raw reply for the final
`ReadResponse(StatusClosingDataConnection)`. -/
structure StorEnv where
  dataEnv : DataCmdEnv
  copyRes : Except GoErr Nat
  storReply : Except GoErr (Nat × List Char) := .ok (226, [])

/-- `client.StorFrom`: open via `cmdDataConnFrom`, copy the caller's
bytes, close the data connection, and — only when the copy succeeded —
read the closing-data-connection status. -/
def storFrom (offset : Nat) (env : StorEnv) : Except GoErr Unit × List Ev :=
  match cmdDataConnFrom offset env.dataEnv with
  | (.error e, evs) => (.error e, evs)
  | (.ok _, evs) =>
    match env.copyRes with
    | .error e => (.error e, evs ++ [.closeData])
    | .ok _ =>
      match readRespCheck (StatusClosingDataConnection : Nat) env.storReply with
      | .error e => (.error e, evs ++ [.closeData, .readCtrl 226])
      | .ok _ => (.ok (), evs ++ [.closeData, .readCtrl 226])

/-- `response.Close`: close the data socket, then unconditionally read
the closing-data-connection status; a read error supersedes the close
error. -/
def responseClose (closeErr : Option GoErr)
    (ctrlReply : Except GoErr (Nat × List Char)) : Option GoErr × List Ev :=
  let err2 : Option GoErr :=
    match readRespCheck (StatusClosingDataConnection : Nat) ctrlReply with
    | .error e => some e
    | .ok _ => none
  (match err2 with
   | some e => some e
   | none => closeErr,
   [.closeData, .readCtrl 226])

/-! ### Teardown (`client.Close`, ftp.go) -/

/-- Outcomes of the three teardown steps. -/
structure CloseEnv where
  reinErr : Option GoErr
  quitErr : Option GoErr
  closeErr : Option GoErr

/-- The three teardown steps in order. -/
inductive CloseStep where
  | rein
  | quit
  | sock
deriving DecidableEq, Repr

/-- `client.Close`: attempt REIN, QUIT and the socket close in order,
each failing step overwriting `err`; all three steps always run. -/
def clientClose (env : CloseEnv) : Option GoErr × List CloseStep :=
  let err0 : Option GoErr := none
  let err1 := match env.reinErr with
    | some e => some e
    | none => err0
  let err2 := match env.quitErr with
    | some e => some e
    | none => err1
  let err3 := match env.closeErr with
    | some e => some e
    | none => err2
  (err3, [.rein, .quit, .sock])

/-! ### Concrete inputs used by the claims -/

/-- The three facts of the structured-facts example line. -/
def factType : List Char := str "type=file"

def factSize : List Char := str "size=12345"

def factModify : List Char := str "modify=20200101120000"

/-- The entry the structured-facts example line denotes. -/
def entryC8 : Entry :=
  { Name := str "report.txt", etype := .file, Size := 12345,
    Time := ⟨2020, 1, 1, 12, 0, 0⟩ }

/-- An `ls`-style line with nine tokens whose leading type character is
unknown to the recognizer. -/
def mlLine : List Char := str "xrw-r--r-- 1 user group 4096 Jan 1 2020 file.txt"

/-- Acquisition oracle for the legacy-mode example: EPSV would fail at
the transport, PASV answers 227 with the example body. -/
def pasvOracleC5 : AcqOracle :=
  { epsvWriteErr := some (.io 1), epsvReply := .error (.io 1),
    pasvReply := .ok (227, str "Entering Passive Mode (192,168,1,1,200,13).") }

/-- Acquisition oracle whose EPSV exchange fails (transport error) and
whose PASV exchange succeeds. -/
def epsvFailOracle : AcqOracle :=
  { epsvWriteErr := some (.io 2), epsvReply := .error (.io 2),
    pasvReply := .ok (227, str "Entering Passive Mode (10,0,0,1,4,1).") }

/-- A store environment whose transfer phase succeeds end to end. -/
def storEnvOk : StorEnv :=
  { dataEnv := { openRes := .ok (), reply := .ok (150, str "Opening") },
    copyRes := .ok 5, storReply := .ok (226, str "Closing") }

/-- A store environment whose `io.Copy` fails partway through. -/
def storEnvFail : StorEnv :=
  { dataEnv := { openRes := .ok (), reply := .ok (150, str "Opening") },
    copyRes := .error (.io 7), storReply := .ok (226, str "Closing") }

/-! ### Helper lemmas -/

/-- A permutation of a two-element list is one of its two orderings. -/
theorem perm_two {α : Type} {a b : α} {p : List α} (h : p.Perm [a, b]) :
    p = [a, b] ∨ p = [b, a] := by
  rcases p with _ | ⟨x, _ | ⟨y, _ | ⟨z, t⟩⟩⟩
  · exact absurd h.length_eq (by simp)
  · exact absurd h.length_eq (by simp)
  · have hx : x = a ∨ x = b := by simpa using h.mem_iff.mp (List.mem_cons_self x [y])
    rcases hx with rfl | rfl
    · have : [y].Perm [b] := h.cons_inv
      exact Or.inl (by rw [List.perm_singleton.mp this])
    · have hswap : ([a, x] : List α).Perm [x, a] := List.Perm.swap x a []
      have : [y].Perm [a] := (h.trans hswap).cons_inv
      exact Or.inr (by rw [List.perm_singleton.mp this])
  · exact absurd h.length_eq (by simp)

/-- A permutation of a three-element list is one of its six orderings. -/
theorem perm_three {α : Type} {a b c : α} {p : List α} (h : p.Perm [a, b, c]) :
    p = [a, b, c] ∨ p = [a, c, b] ∨ p = [b, a, c] ∨ p = [b, c, a] ∨
    p = [c, a, b] ∨ p = [c, b, a] := by
  rcases p with _ | ⟨x, q⟩
  · exact absurd h.length_eq (by simp)
  · have hx : x = a ∨ x = b ∨ x = c := by
      simpa using h.mem_iff.mp (List.mem_cons_self x q)
    rcases hx with rfl | rfl | rfl
    · have hq : q.Perm [b, c] := h.cons_inv
      rcases perm_two hq with rfl | rfl
      · exact Or.inl rfl
      · exact Or.inr (Or.inl rfl)
    · have hbac : ([a, x, c] : List α).Perm (x :: [a, c]) := List.Perm.swap x a [c]
      have hq : q.Perm [a, c] := (h.trans hbac).cons_inv
      rcases perm_two hq with rfl | rfl
      · exact Or.inr (Or.inr (Or.inl rfl))
      · exact Or.inr (Or.inr (Or.inr (Or.inl rfl)))
    · have hcab : ([a, b, x] : List α).Perm (x :: [a, b]) :=
        (List.Perm.cons a (List.Perm.swap x b [])).trans (List.Perm.swap x a [b])
      have hq : q.Perm [a, b] := (h.trans hcab).cons_inv
      rcases perm_two hq with rfl | rfl
      · exact Or.inr (Or.inr (Or.inr (Or.inr (Or.inl rfl))))
      · exact Or.inr (Or.inr (Or.inr (Or.inr (Or.inr rfl))))

/-- Every acquisition of a session whose `unepsv` flag is already set
issues exactly the PASV command and keeps the flag set. -/
theorem runAcq_true_get : ∀ (os : List AcqOracle) (k : Nat), k < os.length →
    (runAcq true os)[k]? = some ([AcqCmd.pasvCmd], true) := by
  intro os
  induction os with
  | nil => intro k hk; simp at hk
  | cons o os ih =>
    intro k hk
    cases k with
    | zero => simp [runAcq, getDataConnPort]
    | succ k =>
      have hk' : k < os.length := by simpa using hk
      simp only [runAcq, getDataConnPort]
      simpa using ih k hk'

/-- If acquisition `i` of a run shows the EPSV-then-PASV trace (an
extended-mode failure), every later acquisition is PASV-only with the
flag set — for any starting flag. -/
theorem runAcq_after : ∀ (os : List AcqOracle) (f : Bool) (i j : Nat) (b : Bool),
    i < j → j < os.length →
    (runAcq f os)[i]? = some ([AcqCmd.epsvCmd, AcqCmd.pasvCmd], b) →
    (runAcq f os)[j]? = some ([AcqCmd.pasvCmd], true) := by
  intro os
  induction os with
  | nil => intro f i j b hij hj hi; simp at hj
  | cons o os ih =>
    intro f i j b hij hj hi
    obtain ⟨j', rfl⟩ : ∃ j', j = j' + 1 := ⟨j - 1, by omega⟩
    cases i with
    | zero =>
      by_cases hf : f = true
      · subst hf
        simp [runAcq, getDataConnPort] at hi
      · have hf0 : f = false := by simpa using hf
        subst hf0
        cases hep : epsv o with
        | error e =>
          have hj' : j' < os.length := by simpa using hj
          simp only [runAcq, getDataConnPort, hep]
          simpa using runAcq_true_get os j' hj'
        | ok port => simp [runAcq, getDataConnPort, hep] at hi
    | succ i' =>
      have hj' : j' < os.length := by simpa using hj
      have hij' : i' < j' := by omega
      simp only [runAcq] at hi ⊢
      simp only [List.getElem?_cons_succ] at hi ⊢
      exact ih _ i' j' b hij' hj' hi

/-- C4: once one extended-mode (EPSV) acquisition in a session fails —
visible as an acquisition that issued EPSV and then fell back to PASV —
every subsequent data-connection port acquisition in that session (one
starting with the flag clear) issues only the legacy PASV command with
the extended-mode-disabled flag set, never re-attempting EPSV. -/
theorem epsv_failure_disables_extended_mode
    (os : List AcqOracle) (i j : Nat) (b : Bool)
    (hij : i < j) (hj : j < os.length)
    (hi : (runAcq false os)[i]? = some ([AcqCmd.epsvCmd, AcqCmd.pasvCmd], b)) :
    (runAcq false os)[j]? = some ([AcqCmd.pasvCmd], true) :=
  runAcq_after os false i j b hij hj hi

/-- Witness for C4 at a concrete two-call session whose first EPSV
attempt fails at the transport. -/
theorem epsv_failure_disables_extended_mode_witness :
    (runAcq false [epsvFailOracle, epsvFailOracle])[1]? =
      some ([AcqCmd.pasvCmd], true) :=
  epsv_failure_disables_extended_mode [epsvFailOracle, epsvFailOracle] 0 1 true
    (by decide) (by decide) (by decide)

/-- Counterexample to C1: when `io.Copy` fails partway through, the
store operation closes the data connection but performs zero
completion-status reads, not one. -/
theorem storFrom_copy_error_skips_completion_read :
    storFrom 0 storEnvFail = (.error (.io 7), [Ev.closeData]) ∧
    ¬ ((storFrom 0 storEnvFail).2.count (Ev.readCtrl 226) = 1) := by decide

/-- C1 (amended): after a successful open, a store operation closes the
data connection exactly once and reads the closing-data-connection
status exactly once when the copy succeeded, but when the copy fails it
returns the copy error immediately after the close with no
completion-status read. -/
theorem storFrom_completion_read_only_after_successful_copy
    (offset : Nat) (env : StorEnv)
    (h : cmdDataConnFrom offset env.dataEnv = (.ok (), [])) :
    (∀ n, env.copyRes = .ok n →
      (storFrom offset env).2 = [Ev.closeData, Ev.readCtrl 226] ∧
      (storFrom offset env).2.count (Ev.readCtrl 226) = 1) ∧
    (∀ e, env.copyRes = .error e →
      storFrom offset env = (.error e, [Ev.closeData])) := by
  constructor
  · intro n hn
    have ht : (storFrom offset env).2 = [Ev.closeData, Ev.readCtrl 226] := by
      cases hr : readRespCheck (StatusClosingDataConnection : Nat) env.storReply with
      | error e => simp [storFrom, h, hn, hr]
      | ok v => simp [storFrom, h, hn, hr]
    exact ⟨ht, by rw [ht]; decide⟩
  · intro e he
    simp [storFrom, h, he]

/-- Witness for C1's amended theorem at concrete store environments. -/
theorem storFrom_completion_read_only_after_successful_copy_witness :
    ((storFrom 0 storEnvOk).2 = [Ev.closeData, Ev.readCtrl 226] ∧
     (storFrom 0 storEnvOk).2.count (Ev.readCtrl 226) = 1) ∧
    storFrom 0 storEnvFail = (.error (.io 7), [Ev.closeData]) :=
  ⟨(storFrom_completion_read_only_after_successful_copy 0 storEnvOk
      (by decide)).1 5 rfl,
   (storFrom_completion_read_only_after_successful_copy 0 storEnvFail
      (by decide)).2 (.io 7) rfl⟩

/-- Counterexample to C2: with REIN and QUIT both failing, `Close`
returns the QUIT (last) error, not the REIN (first) error. -/
theorem clientClose_returns_last_error_counterexample :
    (clientClose ⟨some (.io 1), some (.io 2), none⟩).1 = some (.io 2) ∧
    (clientClose ⟨some (.io 1), some (.io 2), none⟩).1 ≠ some (.io 1) := by decide

/-- C2 (amended): `Close` attempts all three teardown steps without
short-circuiting and returns the last error encountered among the
three (none if all succeed). -/
theorem clientClose_attempts_all_returns_last_error (env : CloseEnv) :
    clientClose env =
      (([env.reinErr, env.quitErr, env.closeErr].filterMap id).getLast?,
       [CloseStep.rein, CloseStep.quit, CloseStep.sock]) := by
  rcases env with ⟨r, q, c⟩
  rcases r <;> rcases q <;> rcases c <;> rfl

/-- Counterexample to C3: a nine-token `ls`-style line with an unknown
leading type character makes the chain surface the recognizer-specific
"Unknown entry type" error instead of trying the fixed-width-date
recognizer (which reports not-this-format for it) and returning the
unsupported-line error. -/
theorem parseListLine_surfaces_recognizer_error :
    parseRFC3659ListLine mlLine = .error .unsupportedListLine ∧
    parseLsListLine 2026 mlLine = .error .unknownEntryType ∧
    parseDirListLine mlLine = .error .unsupportedListLine ∧
    parseListLine 2026 mlLine = .error .unknownEntryType ∧
    GoErr.unknownEntryType ≠ GoErr.unsupportedListLine := by decide

/-- C3 (amended): when a recognizer reports a line as malformed for its
own format (any error other than the unsupported-line sentinel), the
chain stops and surfaces that recognizer-specific error without trying
the subsequent recognizers; only the sentinel means "try next".  At the
listing level the line is still dropped, because the listing loop omits
every line whose parse returns an error. -/
theorem parseListLine_malformed_aborts_chain
    (thisYear : Nat) (line : List Char) (e : GoErr)
    (h1 : parseRFC3659ListLine line = .error .unsupportedListLine)
    (h2 : parseLsListLine thisYear line = .error e)
    (h3 : e ≠ .unsupportedListLine) :
    parseListLine thisYear line = .error e ∧
    listScan thisYear [line] = [] := by
  have hp : parseListLine thisYear line = .error e := by
    unfold parseListLine listLineParsers
    simp only [parseChain, h1, h2]
    cases e <;> simp_all
  exact ⟨hp, by simp [listScan, hp]⟩

/-- Witness for C3's amended theorem at the unknown-type line. -/
theorem parseListLine_malformed_aborts_chain_witness :
    parseListLine 2026 mlLine = .error .unknownEntryType ∧
    listScan 2026 [mlLine] = [] :=
  parseListLine_malformed_aborts_chain 2026 mlLine .unknownEntryType
    (by decide) (by decide) (by decide)

/-- C5: the legacy-mode reply body `(192,168,1,1,200,13)` yields port
200*256+13 = 51213, and the data-connection dial target built by
`openDataConn` pairs the session's already-resolved host — whatever it
is — with that port, never the advertised `192.168.1.1` octets. -/
theorem pasv_port_and_dial_target :
    pasv pasvOracleC5 = .ok 51213 ∧
    pasv pasvOracleC5 = .ok (200 * 256 + 13) ∧
    (∀ host : List Char,
      openDataConn host true pasvOracleC5 = (.ok (host, 51213), true)) ∧
    (openDataConn (str "203.0.113.9") true pasvOracleC5).1 =
      .ok (str "203.0.113.9", 51213) ∧
    str "203.0.113.9" ≠ str "192.168.1.1" := by
  refine ⟨by decide, by decide, ?_, by decide, by decide⟩
  intro host
  have hp : pasv pasvOracleC5 = .ok 51213 := by decide
  simp [openDataConn, getDataConnPort, hp]

/-- C6: after a successful open (and a successful REST exchange when a
non-zero offset is requested), a reply code other than 125/150 to the
triggering command aborts with a protocol error carrying the server's
code and message and closes the data connection; likewise, a non-350
reply to REST for a non-zero offset aborts and closes. -/
theorem cmdDataConnFrom_aborts_and_closes :
    (∀ (env : DataCmdEnv) (offset : Nat) (code : Nat) (msg m' : List Char),
      env.openRes = .ok () →
      (offset = 0 ∨ (env.restWriteErr = none ∧ env.restReply = .ok (350, m'))) →
      env.cmdWriteErr = none →
      env.reply = .ok (code, msg) →
      code ≠ 125 → code ≠ 150 →
      cmdDataConnFrom offset env = (.error (.protocol code msg), [Ev.closeData])) ∧
    (∀ (env : DataCmdEnv) (offset : Nat) (code : Nat) (msg : List Char),
      env.openRes = .ok () →
      offset ≠ 0 →
      env.restWriteErr = none →
      env.restReply = .ok (code, msg) →
      code ≠ 350 →
      cmdDataConnFrom offset env = (.error (.protocol code msg), [Ev.closeData])) := by
  constructor
  · intro env offset code msg m' ho hrest hcw hrep hc1 hc2
    rcases hrest with h0 | ⟨hrw, hrr⟩
    · subst h0
      simp [cmdDataConnFrom, ho, hcw, hrep, readRespCheck,
        StatusAlreadyOpen, StatusAboutToSend]
      exact ⟨hc1, hc2⟩
    · simp [cmdDataConnFrom, goCmd, ho, hrw, hrr, hcw, hrep, readRespCheck,
        StatusRequestFilePending, StatusAlreadyOpen, StatusAboutToSend]
      exact ⟨hc1, hc2⟩
  · intro env offset code msg ho hoff hrw hrr hc
    have hci : ¬((code : Int) = 350) := by exact_mod_cast hc
    simp [cmdDataConnFrom, goCmd, ho, hoff, hrw, hrr, readRespCheck,
      StatusRequestFilePending, hci]

/-- Witness for C6 at concrete environments: a 550 reply to the
triggering command, and a 500 reply to REST at offset 5. -/
theorem cmdDataConnFrom_aborts_and_closes_witness :
    cmdDataConnFrom 0 { openRes := .ok (), reply := .ok (550, str "Denied") } =
      (.error (.protocol 550 (str "Denied")), [Ev.closeData]) ∧
    cmdDataConnFrom 5
        { openRes := .ok (), restReply := .ok (500, str "Nope"),
          reply := .ok (150, str "x") } =
      (.error (.protocol 500 (str "Nope")), [Ev.closeData]) :=
  ⟨cmdDataConnFrom_aborts_and_closes.1 _ 0 550 (str "Denied") [] rfl
      (Or.inl rfl) rfl rfl (by decide) (by decide),
   cmdDataConnFrom_aborts_and_closes.2 _ 5 500 (str "Nope") rfl
      (by decide) rfl rfl (by decide)⟩

/-- C7: closing a download response always closes the data socket and
then performs exactly one trailing control-status read expecting the
closing-data-connection status, regardless of the close outcome and of
whatever the caller's read loop did before. -/
theorem responseClose_single_trailing_read :
    ∀ (closeErr : Option GoErr) (ctrlReply : Except GoErr (Nat × List Char)),
      (responseClose closeErr ctrlReply).2 = [Ev.closeData, Ev.readCtrl 226] ∧
      (responseClose closeErr ctrlReply).2.count (Ev.readCtrl 226) = 1 ∧
      (responseClose closeErr ctrlReply).2.count Ev.closeData = 1 := by
  intro ce cr
  exact ⟨rfl, rfl, rfl⟩

/-- C8: the structured-facts recognizer parses the example line to the
expected entry, produces the same entry for every permutation of the
three facts, and ignores unrecognized facts. -/
theorem parseRFC3659_permutation_invariant :
    (∀ p : List (List Char), p.Perm [factType, factSize, factModify] →
      parseRFC3659ListLine (List.intercalate [';'] p ++ str "; report.txt") =
        .ok entryC8) ∧
    parseRFC3659ListLine
        (str "type=file;size=12345;modify=20200101120000; report.txt") =
      .ok entryC8 ∧
    parseRFC3659ListLine
        (str "type=file;size=12345;modify=20200101120000;unknown=zz; report.txt") =
      .ok entryC8 := by
  refine ⟨?_, by decide, by decide⟩
  intro p hp
  rcases perm_three hp with rfl | rfl | rfl | rfl | rfl | rfl <;> decide

/-- Witness for C8 at a non-identity permutation of the three facts. -/
theorem parseRFC3659_permutation_invariant_witness :
    parseRFC3659ListLine
        (List.intercalate [';'] [factModify, factType, factSize] ++
          str "; report.txt") =
      .ok entryC8 :=
  parseRFC3659_permutation_invariant.1 [factModify, factType, factSize]
    ((List.Perm.swap factType factModify [factSize]).trans
      (List.Perm.cons factType (List.Perm.swap factSize factModify [])))

/-- C9: feature negotiation on the example multi-line 211 reply yields a
table with exactly MLST and SIZE, each with an empty parameter, and any
non-211 reply code yields an empty table with no error. -/
theorem feat_capability_table :
    featWire [str "211-Features:", str " MLST", str " SIZE", str "211 End"] [] =
      .ok [(str "MLST", []), (str "SIZE", [])] ∧
    (∀ (code : Nat) (msg : List Char), code ≠ 211 →
      feat (.ok (code, msg)) [] = .ok []) := by
  refine ⟨by decide, ?_⟩
  intro code msg h
  simp [feat, StatusSystem, h]

/-- Witness for C9 at a concrete non-211 reply. -/
theorem feat_capability_table_witness :
    feat (.ok (500, str "oops")) [] = .ok [] :=
  feat_capability_table.2 500 (str "oops") (by decide)

/-- C10: the line `"123 x"` is shorter than both fixed-width date
formats, so neither is ever attempted, and the recognizer accepts the
line as a file of size 123 named `x` with the zero time value. -/
theorem parseDirListLine_short_line_accepted :
    (str "123 x").length = 5 ∧
    (∀ fmt ∈ dirTimeFormats, ¬ ((str "123 x").length > fmt.length)) ∧
    parseDirListLine (str "123 x") =
      .ok { Name := str "x", etype := .file, Size := 123, Time := GoTime.zero } := by
  decide
